import Mathlib

/-!
Verification of the premium calculation engine of the flight-risk-analysis
repository (`pricing_model.py`, class `FlightInsurancePricingModel`).

The multiplier tables are embedded as association lists mirroring the Python
dictionaries; dictionary `.get(k, d)` becomes `(List.lookup k).getD d`.
Multiplier values are exact rationals (the Python sources write them as
decimal literals). The combined multiplier and the premium are real numbers,
since the code takes a sixth root. Display rounding (`round(x, 2)` /
`round(x, 3)` applied when packing the result dict) is presentation only and
is not modelled; the result record carries the unrounded values
(`final_premium`, `combined_multiplier`, the raw multipliers).

Date handling: `calculate_premium` accepts a date string (parsed by
`pd.to_datetime`, which raises on malformed input) or an already-parsed
datetime. We model the parse outcome as `Option Date`: `none` stands for a
string the parser rejects, `some d` for a successfully parsed calendar date.
`datetime.weekday()` (Monday = 0 .. Sunday = 6) is modelled by the standard
civil-calendar day count.
-/

namespace FlightPricing

/-- A parsed calendar date (what `pd.to_datetime` / `datetime` yields). -/
structure Date where
  year : Int
  month : Nat
  day : Nat
deriving DecidableEq, Repr

/-- Days since the epoch 1970-01-01 (Howard Hinnant's `days_from_civil`
civil-calendar algorithm, with floor division). -/
def daysFromCivil (d : Date) : Int :=
  let y : Int := if d.month ≤ 2 then d.year - 1 else d.year
  let era : Int := y.fdiv 400
  let yoe : Int := y - era * 400
  let mp : Int := if 2 < d.month then (d.month : Int) - 3 else (d.month : Int) + 9
  let doy : Int := (153 * mp + 2).fdiv 5 + (d.day : Int) - 1
  let doe : Int := yoe * 365 + yoe.fdiv 4 - yoe.fdiv 100 + doy
  era * 146097 + doe - 719468

/-- Model of `datetime.weekday()`: Monday = 0 .. Sunday = 6 (1970-01-01 was a
Thursday, weekday 3). -/
def weekday (d : Date) : Nat :=
  ((daysFromCivil d + 3).emod 7).toNat

/-- Constant `self.base_premium = 11.86` (expected claim cost per flight). -/
def basePremium : ℚ := 11.86

/-- Table `self.airline_multipliers` — airline risk multipliers, including the
`'default'` entry used for airlines not in the list. -/
def airlineMultipliers : List (String × ℚ) :=
  [("SV", 44.99), ("PK", 16.67), ("E8", 4.73), ("9C", 4.13), ("KC", 3.60),
   ("2P", 3.27), ("OM", 3.27), ("LV", 3.00), ("BG", 2.93), ("FM", 2.93),
   ("MU", 2.80), ("CZ", 2.67), ("HU", 2.53), ("3U", 2.40), ("CA", 2.27),
   ("MF", 1.87), ("ZH", 1.73), ("GS", 1.60), ("PN", 1.47), ("EU", 1.33),
   ("JD", 1.20), ("NS", 1.07), ("GJ", 0.93), ("KY", 0.80), ("8L", 0.67),
   ("default", 0.67)]

/-- The integer-keyed entries of `self.hour_multipliers`. The Python dict
mixes integer keys with the string key `'default'`; the latter is
`hourDefault` below. -/
def hourMultipliers : List (Int × ℚ) :=
  [(3, 3.64), (0, 1.87), (6, 1.93),
   (11, 1.20), (12, 1.13), (13, 1.27), (15, 1.27), (17, 1.27), (18, 1.20),
   (19, 1.07), (20, 1.20), (21, 1.07)]

/-- The `'default'` entry of `self.hour_multipliers` (0.80, "default for
other hours"). -/
def hourDefault : ℚ := 0.80

/-- Table `self.day_multipliers` — day-of-week multipliers, keys 0 (Monday) .. 6
(Sunday). This dict has no `'default'` entry. -/
def dayMultipliers : List (Int × ℚ) :=
  [(6, 1.20), (4, 1.07), (5, 1.00), (0, 0.93), (1, 0.93), (2, 1.00), (3, 0.73)]

/-- Table `self.season_multipliers` — seasonal multipliers. This dict has no
`'default'` entry. -/
def seasonMultipliers : List (String × ℚ) :=
  [("Summer", 1.35), ("Winter", 1.07), ("Spring", 1.00), ("Fall", 0.60)]

/-- Table `self.airport_multipliers` — airport risk multipliers, including the
`'default'` entry for other airports. -/
def airportMultipliers : List (String × ℚ) :=
  [("SUB", 7.80), ("DOH", 3.87), ("ALA", 3.47), ("LYA", 3.33), ("SJW", 3.33),
   ("PVG", 3.07), ("ULN", 2.87), ("TNA", 2.47), ("YNT", 2.40), ("WUS", 2.20),
   ("default", 1.00)]

/-- The month → season table local to `get_season_multiplier`. -/
def seasonMap : List (Int × String) :=
  [(12, "Winter"), (1, "Winter"), (2, "Winter"),
   (3, "Spring"), (4, "Spring"), (5, "Spring"),
   (6, "Summer"), (7, "Summer"), (8, "Summer"),
   (9, "Fall"), (10, "Fall"), (11, "Fall")]

/-- Method `get_airline_multiplier`: dict get with fallback
`self.airline_multipliers['default']` (= 0.67, proved below as
`airline_default_entry`). -/
def get_airline_multiplier (airline_code : String) : ℚ :=
  (airlineMultipliers.lookup airline_code).getD 0.67

/-- Method `get_hour_multiplier`: dict get with fallback
`self.hour_multipliers['default']` (= `hourDefault`). -/
def get_hour_multiplier (hour : Int) : ℚ :=
  (hourMultipliers.lookup hour).getD hourDefault

/-- Method `get_day_multiplier`: dict get with hardcoded fallback `1.00`. -/
def get_day_multiplier (day_of_week : Int) : ℚ :=
  (dayMultipliers.lookup day_of_week).getD 1.00

/-- Lookup `season_map.get(month, 'Spring')` inside `get_season_multiplier`. -/
def seasonOfMonth (month : Int) : String :=
  (seasonMap.lookup month).getD "Spring"

/-- Method `get_season_multiplier`: month → season, then dict get with hardcoded
fallback `1.00`. -/
def get_season_multiplier (month : Int) : ℚ :=
  (seasonMultipliers.lookup (seasonOfMonth month)).getD 1.00

/-- Method `get_airport_multiplier`: dict get with fallback
`self.airport_multipliers['default']` (= 1.00, proved below as
`airport_default_entry`). -/
def get_airport_multiplier (airport_code : String) : ℚ :=
  (airportMultipliers.lookup airport_code).getD 1.00

/-- Model of `np.power(m1*m2*m3*m4*m5*m6, 1/6)` — the geometric mean of the six
multipliers. -/
noncomputable def combinedOf (m1 m2 m3 m4 m5 m6 : ℝ) : ℝ :=
  (m1 * m2 * m3 * m4 * m5 * m6) ^ ((1 : ℝ) / 6)

/-- The combined multiplier of a flight: geometric mean of the six table
lookups. -/
noncomputable def combinedReal (airline_code departure_airport arrival_airport : String)
    (d : Date) (flight_hour : Int) : ℝ :=
  combinedOf (get_airline_multiplier airline_code)
    (get_hour_multiplier flight_hour)
    (get_day_multiplier (weekday d))
    (get_season_multiplier d.month)
    (get_airport_multiplier departure_airport)
    (get_airport_multiplier arrival_airport)

/-- The risk-category branch of `calculate_premium`: `< 0.8` Low,
`< 1.2` Medium, otherwise High. -/
noncomputable def riskCategory (combined_multiplier : ℝ) : String :=
  if combined_multiplier < 0.8 then "Low Risk"
  else if combined_multiplier < 1.2 then "Medium Risk"
  else "High Risk"

/-- The seven-element weekday-name list indexed by `day_of_week` when the
result dict is built. -/
def dayNames : List String :=
  ["Monday", "Tuesday", "Wednesday", "Thursday", "Friday", "Saturday", "Sunday"]

/-- The result dict of `calculate_premium` (unrounded values; display
rounding is presentation only). -/
structure PremiumResult where
  premium : ℝ
  base_premium : ℝ
  combined_multiplier : ℝ
  risk_category : String
  airline_mult : ℚ
  hour_mult : ℚ
  day_mult : ℚ
  season_mult : ℚ
  departure_airport_mult : ℚ
  arrival_airport_mult : ℚ
  day_of_week_name : String

/-- The body of `calculate_premium` after the date is available as a
parsed `Date`. -/
noncomputable def computePremium (airline_code departure_airport arrival_airport : String)
    (flight_date : Date) (flight_hour : Int) (base_premium : Option ℝ) : PremiumResult :=
  let day_of_week : Nat := weekday flight_date
  let month : Int := flight_date.month
  let airline_mult := get_airline_multiplier airline_code
  let hour_mult := get_hour_multiplier flight_hour
  let day_mult := get_day_multiplier day_of_week
  let season_mult := get_season_multiplier month
  let dept_mult := get_airport_multiplier departure_airport
  let arr_mult := get_airport_multiplier arrival_airport
  let combined_multiplier : ℝ :=
    combinedReal airline_code departure_airport arrival_airport flight_date flight_hour
  let premium_base : ℝ := base_premium.getD (basePremium : ℝ)
  let final_premium : ℝ := premium_base * combined_multiplier
  { premium := final_premium
    base_premium := premium_base
    combined_multiplier := combined_multiplier
    risk_category := riskCategory combined_multiplier
    airline_mult := airline_mult
    hour_mult := hour_mult
    day_mult := day_mult
    season_mult := season_mult
    departure_airport_mult := dept_mult
    arrival_airport_mult := arr_mult
    day_of_week_name := (dayNames[day_of_week]?).getD "" }

/-- Method `calculate_premium`: a string date that `pd.to_datetime` cannot parse
propagates a parse error (`none` models that outcome); otherwise the
premium is computed. No other input is validated. -/
noncomputable def calculate_premium (airline_code departure_airport arrival_airport : String)
    (flight_date : Option Date) (flight_hour : Int) (base_premium : Option ℝ) :
    Except String PremiumResult :=
  match flight_date with
  | none => .error "InvalidInput: unparseable flight date"
  | some d =>
      .ok (computePremium airline_code departure_airport arrival_airport d
        flight_hour base_premium)


/-! ### Helper lemmas about association-list lookups -/

/-- A successful association-list lookup returns one of the stored values. -/
theorem lookup_mem {α : Type} {β : Type} [BEq α] {l : List (α × β)} {k : α}
    {v : β} (h : List.lookup k l = some v) : v ∈ l.map Prod.snd := by
  induction l with
  | nil => simp [List.lookup] at h
  | cons p t ih =>
    obtain ⟨a, b⟩ := p
    rw [List.lookup] at h
    cases hk : (k == a) with
    | true =>
      rw [hk] at h
      simp only [Option.some.injEq] at h
      simp [h]
    | false =>
      rw [hk] at h
      simpa using Or.inr (ih h)

/-- An association-list lookup of a key distinct from every stored key
fails. -/
theorem lookup_eq_none {α : Type} {β : Type} [BEq α] [LawfulBEq α]
    {l : List (α × β)} {k : α} (h : ∀ a ∈ l.map Prod.fst, a ≠ k) :
    List.lookup k l = none := by
  induction l with
  | nil => rfl
  | cons p t ih =>
    obtain ⟨a, b⟩ := p
    rw [List.lookup]
    have hka : (k == a) = false :=
      beq_eq_false_iff_ne.mpr fun e => h a (by simp) e.symm
    rw [hka]
    exact ih fun x hx => h x (by simp [hx])

/-- A dict get with a positive fallback over a table of positive values is
positive. -/
theorem getD_lookup_pos {α : Type} [BEq α] {l : List (α × ℚ)} {dflt : ℚ}
    (hd : 0 < dflt) (hl : ∀ v ∈ l.map Prod.snd, 0 < v) (k : α) :
    0 < (List.lookup k l).getD dflt := by
  cases h : List.lookup k l with
  | none => simpa using hd
  | some v => simpa using hl v (lookup_mem h)

/-! ### Positivity of the table lookups -/

theorem get_airline_multiplier_pos (c : String) : 0 < get_airline_multiplier c :=
  getD_lookup_pos (by norm_num) (by norm_num [airlineMultipliers]) c

theorem get_hour_multiplier_pos (h : Int) : 0 < get_hour_multiplier h :=
  getD_lookup_pos (by norm_num [hourDefault]) (by norm_num [hourMultipliers]) h

theorem get_day_multiplier_pos (k : Int) : 0 < get_day_multiplier k :=
  getD_lookup_pos (by norm_num) (by norm_num [dayMultipliers]) k

theorem get_season_multiplier_pos (m : Int) : 0 < get_season_multiplier m :=
  getD_lookup_pos (by norm_num) (by norm_num [seasonMultipliers]) (seasonOfMonth m)

theorem get_airport_multiplier_pos (c : String) : 0 < get_airport_multiplier c :=
  getD_lookup_pos (by norm_num) (by norm_num [airportMultipliers]) c

/-! ### The geometric-mean combination -/

theorem sixProd_pos {m1 m2 m3 m4 m5 m6 : ℝ} (h1 : 0 < m1) (h2 : 0 < m2)
    (h3 : 0 < m3) (h4 : 0 < m4) (h5 : 0 < m5) (h6 : 0 < m6) :
    0 < m1 * m2 * m3 * m4 * m5 * m6 :=
  mul_pos (mul_pos (mul_pos (mul_pos (mul_pos h1 h2) h3) h4) h5) h6

theorem combinedOf_pos {m1 m2 m3 m4 m5 m6 : ℝ} (h1 : 0 < m1) (h2 : 0 < m2)
    (h3 : 0 < m3) (h4 : 0 < m4) (h5 : 0 < m5) (h6 : 0 < m6) :
    0 < combinedOf m1 m2 m3 m4 m5 m6 :=
  Real.rpow_pos_of_pos (sixProd_pos h1 h2 h3 h4 h5 h6) _

theorem combinedReal_pos (a dep arr : String) (d : Date) (h : Int) :
    0 < combinedReal a dep arr d h := by
  unfold combinedReal
  apply combinedOf_pos <;>
    first
      | exact_mod_cast get_airline_multiplier_pos a
      | exact_mod_cast get_hour_multiplier_pos h
      | exact_mod_cast get_day_multiplier_pos (weekday d)
      | exact_mod_cast get_season_multiplier_pos d.month
      | exact_mod_cast get_airport_multiplier_pos dep
      | exact_mod_cast get_airport_multiplier_pos arr

/-- The sixth power of the combined multiplier recovers the product of the
six multipliers. -/
theorem combinedOf_pow_six {m1 m2 m3 m4 m5 m6 : ℝ}
    (h : 0 ≤ m1 * m2 * m3 * m4 * m5 * m6) :
    combinedOf m1 m2 m3 m4 m5 m6 ^ (6 : ℕ) = m1 * m2 * m3 * m4 * m5 * m6 := by
  unfold combinedOf
  rw [show (1 : ℝ) / 6 = ((6 : ℕ) : ℝ)⁻¹ by norm_num]
  exact Real.rpow_inv_natCast_pow h (by norm_num)

/-- Monotonicity of the sixth root. -/
theorem sixthRoot_mono {p q : ℝ} (hp : 0 ≤ p) (hpq : p ≤ q) :
    p ^ ((1 : ℝ) / 6) ≤ q ^ ((1 : ℝ) / 6) :=
  Real.rpow_le_rpow hp hpq (by norm_num)

/-- A lower bound on the sixth root from a lower bound on the radicand. -/
theorem le_sixthRoot {c p : ℝ} (hc : 0 ≤ c) (h : c ^ (6 : ℕ) ≤ p) :
    c ≤ p ^ ((1 : ℝ) / 6) := by
  have h6 : ((6 : ℕ) : ℝ)⁻¹ = (1 : ℝ) / 6 := by norm_num
  calc c = (c ^ (6 : ℕ)) ^ (((6 : ℕ) : ℝ)⁻¹) :=
        (Real.pow_rpow_inv_natCast hc (by norm_num)).symm
    _ ≤ p ^ (((6 : ℕ) : ℝ)⁻¹) :=
        Real.rpow_le_rpow (by positivity) h (by positivity)
    _ = p ^ ((1 : ℝ) / 6) := by rw [h6]

/-! ### The risk-category branch -/

theorem riskCategory_of_lt {c : ℝ} (h : c < 0.8) :
    riskCategory c = "Low Risk" := by
  unfold riskCategory
  rw [if_pos h]

theorem riskCategory_of_mid {c : ℝ} (h1 : 0.8 ≤ c) (h2 : c < 1.2) :
    riskCategory c = "Medium Risk" := by
  unfold riskCategory
  rw [if_neg (not_lt.mpr h1), if_pos h2]

theorem riskCategory_of_ge {c : ℝ} (h : 1.2 ≤ c) :
    riskCategory c = "High Risk" := by
  unfold riskCategory
  rw [if_neg (not_lt.mpr (le_trans (by norm_num) h)), if_neg (not_lt.mpr h)]

/-! ### Projections of the result record -/

theorem computePremium_combined (a dep arr : String) (d : Date) (h : Int)
    (b : Option ℝ) :
    (computePremium a dep arr d h b).combined_multiplier =
      combinedReal a dep arr d h := rfl

theorem computePremium_premium (a dep arr : String) (d : Date) (h : Int)
    (b : Option ℝ) :
    (computePremium a dep arr d h b).premium =
      b.getD ((basePremium : ℚ) : ℝ) * combinedReal a dep arr d h := rfl

theorem computePremium_risk (a dep arr : String) (d : Date) (h : Int)
    (b : Option ℝ) :
    (computePremium a dep arr d h b).risk_category =
      riskCategory (combinedReal a dep arr d h) := rfl

/-! ### Claims -/

/-- C1: for every flight input, the combined multiplier computed by
`calculate_premium` is the geometric mean of the six per-dimension
multipliers — it is nonnegative and its sixth power is the product
airline · hour · day · season · departure-airport · arrival-airport — and
the final premium equals the base-premium override (when one is supplied,
otherwise the default 11.86) multiplied by that combined multiplier. -/
theorem premium_is_base_times_geometric_mean (a dep arr : String) (d : Date)
    (h : Int) (b : Option ℝ) :
    (computePremium a dep arr d h b).combined_multiplier ^ (6 : ℕ) =
        (get_airline_multiplier a : ℝ) * (get_hour_multiplier h : ℝ) *
        (get_day_multiplier (weekday d) : ℝ) *
        (get_season_multiplier d.month : ℝ) *
        (get_airport_multiplier dep : ℝ) * (get_airport_multiplier arr : ℝ) ∧
    0 ≤ (computePremium a dep arr d h b).combined_multiplier ∧
    (computePremium a dep arr d h b).premium =
      b.getD (11.86 : ℝ) * (computePremium a dep arr d h b).combined_multiplier := by
  have hpos : (0 : ℝ) <
      (get_airline_multiplier a : ℝ) * (get_hour_multiplier h : ℝ) *
      (get_day_multiplier (weekday d) : ℝ) *
      (get_season_multiplier d.month : ℝ) *
      (get_airport_multiplier dep : ℝ) * (get_airport_multiplier arr : ℝ) :=
    sixProd_pos (by exact_mod_cast get_airline_multiplier_pos a)
      (by exact_mod_cast get_hour_multiplier_pos h)
      (by exact_mod_cast get_day_multiplier_pos (weekday d))
      (by exact_mod_cast get_season_multiplier_pos d.month)
      (by exact_mod_cast get_airport_multiplier_pos dep)
      (by exact_mod_cast get_airport_multiplier_pos arr)
  refine ⟨?_, ?_, ?_⟩
  · rw [computePremium_combined]
    exact combinedOf_pow_six hpos.le
  · rw [computePremium_combined]
    exact (combinedReal_pos a dep arr d h).le
  · rw [computePremium_premium, computePremium_combined]
    cases b with
    | none =>
        rw [Option.getD_none, Option.getD_none]
        congr 1
    | some x => rfl

/-- C2: the risk category returned by `calculate_premium` is determined
solely by the combined multiplier, with exact boundaries: below 0.8 Low
Risk, in [0.8, 1.2) Medium Risk (so exactly 0.8 is Medium, not Low), and at
or above 1.2 High Risk (so exactly 1.2 is High, not Medium). -/
theorem risk_category_exact_boundaries (c : ℝ) (a dep arr : String)
    (d : Date) (h : Int) (b : Option ℝ) :
    (c < 0.8 → riskCategory c = "Low Risk") ∧
    (0.8 ≤ c → c < 1.2 → riskCategory c = "Medium Risk") ∧
    (1.2 ≤ c → riskCategory c = "High Risk") ∧
    (computePremium a dep arr d h b).risk_category =
      riskCategory (computePremium a dep arr d h b).combined_multiplier :=
  ⟨fun hc => riskCategory_of_lt hc,
   fun hc1 hc2 => riskCategory_of_mid hc1 hc2,
   fun hc => riskCategory_of_ge hc,
   by rw [computePremium_risk, computePremium_combined]⟩

/-- Witness for C2 at the two boundary points: a combined multiplier of
exactly 0.8 is Medium Risk and exactly 1.2 is High Risk. -/
theorem risk_category_exact_boundaries_witness :
    riskCategory 0.8 = "Medium Risk" ∧ riskCategory 1.2 = "High Risk" :=
  ⟨(risk_category_exact_boundaries 0.8 "SV" "HKG" "SUB" ⟨2024, 7, 21⟩ 3
      none).2.1 (by norm_num) (by norm_num),
   (risk_category_exact_boundaries 1.2 "SV" "HKG" "SUB" ⟨2024, 7, 21⟩ 3
      none).2.2.1 (by norm_num)⟩

/-- C5: each of the six multiplier lookups is a total function and returns
its table's default value when the key is absent — 0.67 for airlines, 0.80
for hours, 1.00 for day-of-week, 1.00 for seasons (an unknown month gets
the default season Spring, whose multiplier is 1.00), and 1.00 for
departure and arrival airports; no unknown key ever raises an error. -/
theorem absent_keys_get_default_values :
    (∀ c : String, airlineMultipliers.lookup c = none →
      get_airline_multiplier c = 0.67) ∧
    (∀ hr : Int, hourMultipliers.lookup hr = none →
      get_hour_multiplier hr = 0.80) ∧
    (∀ k : Int, dayMultipliers.lookup k = none →
      get_day_multiplier k = 1.00) ∧
    (∀ m : Int, seasonMap.lookup m = none →
      get_season_multiplier m = 1.00) ∧
    (∀ c : String, airportMultipliers.lookup c = none →
      get_airport_multiplier c = 1.00) := by
  refine ⟨fun c hc => ?_, fun hr hh => ?_, fun k hk => ?_, fun m hm => ?_,
    fun c hc => ?_⟩
  · unfold get_airline_multiplier
    rw [hc]
    rfl
  · unfold get_hour_multiplier
    rw [hh]
    rfl
  · unfold get_day_multiplier
    rw [hk]
    rfl
  · unfold get_season_multiplier seasonOfMonth
    rw [hm]
    rfl
  · unfold get_airport_multiplier
    rw [hc]
    rfl

/-- Witness for C5: concrete absent keys for each of the five tables
(airline ZZZ, hour 25, weekday 7, month 13, airport ZZZ) resolve to the
respective defaults. -/
theorem absent_keys_get_default_values_witness :
    airlineMultipliers.lookup "ZZZ" = none ∧
    get_airline_multiplier "ZZZ" = 0.67 ∧
    hourMultipliers.lookup 25 = none ∧ get_hour_multiplier 25 = 0.80 ∧
    dayMultipliers.lookup 7 = none ∧ get_day_multiplier 7 = 1.00 ∧
    seasonMap.lookup 13 = none ∧ get_season_multiplier 13 = 1.00 ∧
    airportMultipliers.lookup "ZZZ" = none ∧
    get_airport_multiplier "ZZZ" = 1.00 :=
  ⟨rfl, absent_keys_get_default_values.1 "ZZZ" rfl,
   rfl, absent_keys_get_default_values.2.1 25 rfl,
   rfl, absent_keys_get_default_values.2.2.1 7 rfl,
   rfl, absent_keys_get_default_values.2.2.2.1 13 rfl,
   rfl, absent_keys_get_default_values.2.2.2.2 "ZZZ" rfl⟩

/-- C6 counterexample: not every multiplier table contains a default entry
for unknown keys — the season table has no `'default'` key at all, and the
day table's keys are exactly the seven weekdays 0–6 with no default
entry. -/
theorem season_and_day_tables_lack_default_entries :
    seasonMultipliers.lookup "default" = none ∧
    dayMultipliers.map Prod.fst = [6, 4, 5, 0, 1, 2, 3] :=
  ⟨rfl, rfl⟩

/-- C6 amended: every multiplier value in every table (and each fallback)
is strictly positive, and the airline, hour and airport tables contain
default entries (0.67, 0.80 and 1.00 respectively); the day and season
tables contain no default entry — their lookups instead fall back to a
hardcoded 1.00 in the getter methods. -/
theorem multiplier_tables_invariant :
    (∀ v ∈ airlineMultipliers.map Prod.snd, 0 < v) ∧
    (∀ v ∈ hourMultipliers.map Prod.snd, 0 < v) ∧ 0 < hourDefault ∧
    (∀ v ∈ dayMultipliers.map Prod.snd, 0 < v) ∧
    (∀ v ∈ seasonMultipliers.map Prod.snd, 0 < v) ∧
    (∀ v ∈ airportMultipliers.map Prod.snd, 0 < v) ∧
    airlineMultipliers.lookup "default" = some 0.67 ∧
    airportMultipliers.lookup "default" = some 1.00 ∧
    seasonMultipliers.lookup "default" = none ∧
    dayMultipliers.map Prod.fst = [6, 4, 5, 0, 1, 2, 3] :=
  ⟨by norm_num [airlineMultipliers], by norm_num [hourMultipliers],
   by norm_num [hourDefault], by norm_num [dayMultipliers],
   by norm_num [seasonMultipliers], by norm_num [airportMultipliers],
   rfl, rfl, rfl, rfl⟩

/-- C8: the month → season mapping is the fixed total partition of the 12
calendar months — December, January, February to Winter; March, April, May
to Spring; June, July, August to Summer; September, October, November to
Fall — so every month 1–12 is assigned exactly one of the four seasons. -/
theorem season_partition_of_months :
    seasonOfMonth 12 = "Winter" ∧ seasonOfMonth 1 = "Winter" ∧
    seasonOfMonth 2 = "Winter" ∧ seasonOfMonth 3 = "Spring" ∧
    seasonOfMonth 4 = "Spring" ∧ seasonOfMonth 5 = "Spring" ∧
    seasonOfMonth 6 = "Summer" ∧ seasonOfMonth 7 = "Summer" ∧
    seasonOfMonth 8 = "Summer" ∧ seasonOfMonth 9 = "Fall" ∧
    seasonOfMonth 10 = "Fall" ∧ seasonOfMonth 11 = "Fall" :=
  ⟨rfl, rfl, rfl, rfl, rfl, rfl, rfl, rfl, rfl, rfl, rfl, rfl⟩

/-- C3 counterexample: with a perfectly valid date, departure hour 25 does
not raise any error — `calculate_premium` succeeds, and the hour lookup
silently substitutes the default multiplier 0.80 for the out-of-range hour,
refuting the claim that every hour outside 0–23 raises InvalidInput. -/
theorem hour_25_is_silently_defaulted :
    calculate_premium "CA" "HKG" "PEK" (some ⟨2024, 7, 21⟩) 25 none =
      Except.ok (computePremium "CA" "HKG" "PEK" ⟨2024, 7, 21⟩ 25 none) ∧
    (computePremium "CA" "HKG" "PEK" ⟨2024, 7, 21⟩ 25 none).hour_mult = 0.80 ∧
    hourMultipliers.lookup 25 = none :=
  ⟨rfl, rfl, rfl⟩

/-- C3 amended: a malformed/unparseable date string is the only rejected
input — it propagates a parse error — while an out-of-range departure hour
is never rejected: `calculate_premium` succeeds on every parsed date and
every hour, and any hour outside 0–23 misses the hour table and silently
receives the default hour multiplier 0.80. -/
theorem unparseable_date_errors_but_hours_never (a dep arr : String)
    (d : Date) (h : Int) (b : Option ℝ) (hh : h < 0 ∨ 23 < h) :
    calculate_premium a dep arr none h b =
      Except.error "InvalidInput: unparseable flight date" ∧
    calculate_premium a dep arr (some d) h b =
      Except.ok (computePremium a dep arr d h b) ∧
    hourMultipliers.lookup h = none ∧
    get_hour_multiplier h = 0.80 := by
  have hnone : hourMultipliers.lookup h = none := by
    apply lookup_eq_none
    intro x hx
    have hx2 : x = 3 ∨ x = 0 ∨ x = 6 ∨ x = 11 ∨ x = 12 ∨ x = 13 ∨ x = 15 ∨
        x = 17 ∨ x = 18 ∨ x = 19 ∨ x = 20 ∨ x = 21 := by
      simpa [hourMultipliers] using hx
    omega
  refine ⟨rfl, rfl, hnone, ?_⟩
  unfold get_hour_multiplier
  rw [hnone]
  rfl

/-- Witness for the amended C3 at hour 25: it is out of range and resolves
to the default multiplier 0.80. -/
theorem unparseable_date_errors_but_hours_never_witness :
    ((25 : Int) < 0 ∨ 23 < (25 : Int)) ∧ get_hour_multiplier 25 = 0.80 :=
  ⟨Or.inr (by norm_num),
   (unparseable_date_errors_but_hours_never "CA" "HKG" "PEK" ⟨2024, 7, 21⟩
      25 none (Or.inr (by norm_num))).2.2.2⟩

/-- C4 counterexample: a negative base-premium override (-1) is not
rejected — `calculate_premium` succeeds and silently computes a (negative)
premium from it, refuting the claim that every non-positive override raises
InvalidInput. -/
theorem negative_base_premium_not_rejected :
    calculate_premium "SV" "HKG" "SUB" (some ⟨2024, 7, 21⟩) 3 (some (-1)) =
      Except.ok (computePremium "SV" "HKG" "SUB" ⟨2024, 7, 21⟩ 3 (some (-1))) ∧
    (computePremium "SV" "HKG" "SUB" ⟨2024, 7, 21⟩ 3 (some (-1))).premium =
      -1 * combinedReal "SV" "HKG" "SUB" ⟨2024, 7, 21⟩ 3 ∧
    (computePremium "SV" "HKG" "SUB" ⟨2024, 7, 21⟩ 3 (some (-1))).premium < 0 := by
  refine ⟨rfl, rfl, ?_⟩
  rw [computePremium_premium]
  have hc := combinedReal_pos "SV" "HKG" "SUB" ⟨2024, 7, 21⟩ 3
  rw [Option.getD_some]
  nlinarith

/-- C4 amended: `calculate_premium` performs no validation of the
base-premium override at all: every supplied override, including zero and
negative values, is silently accepted and used directly — the premium is
override × combined multiplier and no error is ever raised. -/
theorem base_premium_override_never_validated (a dep arr : String)
    (d : Date) (h : Int) (b : ℝ) :
    calculate_premium a dep arr (some d) h (some b) =
      Except.ok (computePremium a dep arr d h (some b)) ∧
    (computePremium a dep arr d h (some b)).premium =
      b * combinedReal a dep arr d h :=
  ⟨rfl, rfl⟩

/-- C10: the day-of-week derived inside `calculate_premium` is always in
0–6, so the day-multiplier lookup hits a table entry and the index into the
seven-element weekday-name list is in bounds (the echoed name is one of the
seven weekday names); a direct `get_day_multiplier` call with any key
outside 0–6 misses the day table entirely and returns the hardcoded
fallback 1.00 rather than a table entry. -/
theorem day_of_week_always_in_bounds (a dep arr : String) (d : Date)
    (h : Int) (b : Option ℝ) (k : Int) (hk : k < 0 ∨ 6 < k) :
    weekday d < 7 ∧
    (dayMultipliers.lookup ((weekday d : Nat) : Int)).isSome = true ∧
    (dayNames[weekday d]?).isSome = true ∧
    (computePremium a dep arr d h b).day_of_week_name ∈ dayNames ∧
    dayMultipliers.lookup k = none ∧
    get_day_multiplier k = 1.00 := by
  have hw : weekday d < 7 := by
    have h1 : 0 ≤ (daysFromCivil d + 3).emod 7 := Int.emod_nonneg _ (by norm_num)
    have h2 : (daysFromCivil d + 3).emod 7 < 7 := Int.emod_lt_of_pos _ (by norm_num)
    unfold weekday
    omega
  have hlen : weekday d < dayNames.length := by simpa [dayNames] using hw
  have hnone : dayMultipliers.lookup k = none := by
    apply lookup_eq_none
    intro x hx
    have hx2 : x = 6 ∨ x = 4 ∨ x = 5 ∨ x = 0 ∨ x = 1 ∨ x = 2 ∨ x = 3 := by
      simpa [dayMultipliers] using hx
    omega
  refine ⟨hw, ?_, ?_, ?_, hnone, ?_⟩
  · have hcases : weekday d = 0 ∨ weekday d = 1 ∨ weekday d = 2 ∨
        weekday d = 3 ∨ weekday d = 4 ∨ weekday d = 5 ∨ weekday d = 6 := by
      omega
    rcases hcases with h0 | h0 | h0 | h0 | h0 | h0 | h0 <;> rw [h0] <;> rfl
  · rw [List.getElem?_eq_getElem hlen]
    rfl
  · have hname : (computePremium a dep arr d h b).day_of_week_name =
        (dayNames[weekday d]?).getD "" := rfl
    rw [hname, List.getElem?_eq_getElem hlen, Option.getD_some]
    exact List.getElem_mem hlen
  · unfold get_day_multiplier
    rw [hnone]
    rfl

/-- Witness for C10 at the concrete date 2024-07-21 and key 7: the derived
weekday is in range and a key outside 0–6 returns the fallback 1.00. -/
theorem day_of_week_always_in_bounds_witness :
    ((7 : Int) < 0 ∨ 6 < (7 : Int)) ∧ weekday ⟨2024, 7, 21⟩ < 7 ∧
    get_day_multiplier 7 = 1.00 :=
  ⟨Or.inr (by norm_num),
   (day_of_week_always_in_bounds "SV" "HKG" "SUB" ⟨2024, 7, 21⟩ 3 none 7
      (Or.inr (by norm_num))).1,
   (day_of_week_always_in_bounds "SV" "HKG" "SUB" ⟨2024, 7, 21⟩ 3 none 7
      (Or.inr (by norm_num))).2.2.2.2.2⟩

/-- C7: the combined geometric-mean multiplier is monotone in each of the
six individual multipliers: for any six positive multipliers, replacing any
single one by a larger-or-equal value (holding the other five fixed) never
decreases the combined value. -/
theorem combined_monotone_in_each_factor (m1 m2 m3 m4 m5 m6 n : ℝ)
    (h1 : 0 < m1) (h2 : 0 < m2) (h3 : 0 < m3) (h4 : 0 < m4) (h5 : 0 < m5)
    (h6 : 0 < m6) :
    (m1 ≤ n → combinedOf m1 m2 m3 m4 m5 m6 ≤ combinedOf n m2 m3 m4 m5 m6) ∧
    (m2 ≤ n → combinedOf m1 m2 m3 m4 m5 m6 ≤ combinedOf m1 n m3 m4 m5 m6) ∧
    (m3 ≤ n → combinedOf m1 m2 m3 m4 m5 m6 ≤ combinedOf m1 m2 n m4 m5 m6) ∧
    (m4 ≤ n → combinedOf m1 m2 m3 m4 m5 m6 ≤ combinedOf m1 m2 m3 n m5 m6) ∧
    (m5 ≤ n → combinedOf m1 m2 m3 m4 m5 m6 ≤ combinedOf m1 m2 m3 m4 n m6) ∧
    (m6 ≤ n → combinedOf m1 m2 m3 m4 m5 m6 ≤ combinedOf m1 m2 m3 m4 m5 n) := by
  have hprod := (sixProd_pos h1 h2 h3 h4 h5 h6).le
  have g1 : 0 ≤ m1 := h1.le
  have g2 : 0 ≤ m2 := h2.le
  have g3 : 0 ≤ m3 := h3.le
  have g4 : 0 ≤ m4 := h4.le
  have g5 : 0 ≤ m5 := h5.le
  have g6 : 0 ≤ m6 := h6.le
  exact ⟨fun hm => sixthRoot_mono hprod (by gcongr),
    fun hm => sixthRoot_mono hprod (by gcongr),
    fun hm => sixthRoot_mono hprod (by gcongr),
    fun hm => sixthRoot_mono hprod (by gcongr),
    fun hm => sixthRoot_mono hprod (by gcongr),
    fun hm => sixthRoot_mono hprod (by gcongr)⟩

/-- Witness for C7: raising the first multiplier from 1 to 2 with the other
five fixed at 1 does not decrease the combined multiplier. -/
theorem combined_monotone_in_each_factor_witness :
    (0 : ℝ) < 1 ∧ (1 : ℝ) ≤ 2 ∧
    combinedOf 1 1 1 1 1 1 ≤ combinedOf 2 1 1 1 1 1 :=
  ⟨one_pos, one_le_two,
   (combined_monotone_in_each_factor 1 1 1 1 1 1 2 one_pos one_pos one_pos
      one_pos one_pos one_pos).1 one_le_two⟩

/-- C9: for airline SV, arrival airport SUB, date 2024-07-21 (a Sunday in
Summer), departure hour 3 and any untabulated departure airport, the six
resolved multipliers are 44.99 (airline SV), 3.64 (hour 3), 1.20 (Sunday),
1.35 (Summer), the airport-table default 1.00 (departure) and 7.80 (arrival
SUB); the combined multiplier is their geometric mean, the premium is 11.86
times that combined multiplier, and the risk category is High Risk. -/
theorem example_flight_SV_SUB_high_risk (dep : String)
    (hdep : airportMultipliers.lookup dep = none) :
    weekday ⟨2024, 7, 21⟩ = 6 ∧
    seasonOfMonth 7 = "Summer" ∧
    get_airline_multiplier "SV" = 44.99 ∧
    get_hour_multiplier 3 = 3.64 ∧
    get_day_multiplier 6 = 1.20 ∧
    get_season_multiplier 7 = 1.35 ∧
    get_airport_multiplier dep = 1.00 ∧
    get_airport_multiplier "SUB" = 7.80 ∧
    (computePremium "SV" dep "SUB" ⟨2024, 7, 21⟩ 3 none).combined_multiplier =
      combinedOf 44.99 3.64 1.20 1.35 1.00 7.80 ∧
    (computePremium "SV" dep "SUB" ⟨2024, 7, 21⟩ 3 none).premium =
      11.86 * combinedOf 44.99 3.64 1.20 1.35 1.00 7.80 ∧
    (computePremium "SV" dep "SUB" ⟨2024, 7, 21⟩ 3 none).risk_category =
      "High Risk" := by
  have hdep1 : get_airport_multiplier dep = 1.00 := by
    unfold get_airport_multiplier
    rw [hdep]
    rfl
  have hcr : combinedReal "SV" dep "SUB" ⟨2024, 7, 21⟩ 3 =
      combinedOf 44.99 3.64 1.20 1.35 1.00 7.80 := by
    unfold combinedReal combinedOf
    congr 1
    rw [show weekday ⟨2024, 7, 21⟩ = 6 from rfl, hdep1]
    rw [show get_airline_multiplier "SV" = 44.99 from rfl]
    rw [show get_hour_multiplier 3 = 3.64 from rfl]
    rw [show get_day_multiplier ((6 : Nat) : Int) = 1.20 from rfl]
    rw [show get_season_multiplier (Date.month ⟨2024, 7, 21⟩ : Int) = 1.35 from rfl]
    rw [show get_airport_multiplier "SUB" = 7.80 from rfl]
    norm_num
  have hge : (1.2 : ℝ) ≤ combinedOf 44.99 3.64 1.20 1.35 1.00 7.80 := by
    unfold combinedOf
    apply le_sixthRoot (by norm_num)
    norm_num
  refine ⟨rfl, rfl, rfl, rfl, rfl, rfl, hdep1, rfl, ?_, ?_, ?_⟩
  · rw [computePremium_combined, hcr]
  · rw [computePremium_premium, hcr, Option.getD_none]
    congr 1
  · rw [computePremium_risk, hcr]
    exact riskCategory_of_ge hge

/-- Witness for C9 at the concrete untabulated departure airport HKG. -/
theorem example_flight_SV_SUB_high_risk_witness :
    airportMultipliers.lookup "HKG" = none ∧
    (computePremium "SV" "HKG" "SUB" ⟨2024, 7, 21⟩ 3 none).risk_category =
      "High Risk" :=
  ⟨rfl, (example_flight_SV_SUB_high_risk "HKG" rfl).2.2.2.2.2.2.2.2.2.2⟩

end FlightPricing
